import Mathlib

/-
Verification of the high-speed-camera core against its specification.

The definitions below are shallow embeddings of the Python sources:
  src/src/ui/session.py            (ViewerSession: single-viewer gate)
  src/src/camera/video_frame.py    (VideoFrame validation)
  src/src/camera/highspeed_recorder.py (HighSpeedRecorder ring buffer)
  src/src/camera/device.py         (CameraDevice lifecycle and timeout policy)

Machine floats of the source are modelled as exact rationals; numpy arrays
are modelled by their shape and dtype; thread locks disappear because every
operation here is a pure state transformer executed atomically.
-/

-- ------------------------------------------------------------------
-- ViewerSession (src/src/ui/session.py)
-- The active session is the optional session hash of the current viewer;
-- SessionInfo.start_time and is_active play no role in the gate decisions.
-- ------------------------------------------------------------------

/-- State transformer of ViewerSession.try_start_session: returns the bool
result together with the new active-session state. -/
def try_start_session (s : Option String) (session_hash : String) :
    Bool × Option String :=
  match s with
  | some h => if h = session_hash then (true, some h) else (false, some h)
  | none => (true, some session_hash)

/-- State transformer of ViewerSession.end_session: clears the active
session only when the hash matches; otherwise leaves the state unchanged. -/
def end_session (s : Option String) (session_hash : String) : Option String :=
  match s with
  | some h => if h = session_hash then none else some h
  | none => none

-- ------------------------------------------------------------------
-- VideoFrame (src/src/camera/video_frame.py)
-- ------------------------------------------------------------------

/-- Dtype of a numpy array: uint8 or anything else. -/
inductive DType
  | uint8
  | other
deriving DecidableEq, Repr

/-- A numpy array abstracted to its shape and dtype, which is all the
VideoFrame validation inspects. -/
structure NdArray where
  shape : List Int
  dtype : DType
deriving DecidableEq, Repr

/-- Field layout of the VideoFrame dataclass. -/
structure VideoFrameData where
  data : NdArray
  width : Int
  height : Int
  channels : Int
  timestamp : ℚ
  sequence_number : Int
  media_type : Int
deriving DecidableEq, Repr

/-- Shape that VideoFrame.__post_init__ expects of the data array once the
channel count has been validated. -/
def expected_shape (f : VideoFrameData) : List Int :=
  if f.channels = 3 then [f.height, f.width, f.channels] else [f.height, f.width]

/-- VideoFrame.__post_init__: the checks in source order, mapped to an
Except value (error on the first failing check, ok if all pass). -/
def validate_video_frame (f : VideoFrameData) : Except String Unit :=
  if f.channels ≠ 1 ∧ f.channels ≠ 3 then Except.error "Invalid channel count"
  else if f.width ≤ 0 ∨ f.height ≤ 0 then Except.error "Invalid dimensions"
  else if f.data.shape ≠ expected_shape f then Except.error "Frame data shape mismatch"
  else if f.data.dtype ≠ DType.uint8 then Except.error "Frame data dtype not uint8"
  else if f.timestamp ≤ 0 then Except.error "Invalid timestamp"
  else if f.sequence_number < 0 then Except.error "Invalid sequence"
  else Except.ok ()

/-- A 640 by 480 color frame whose data buffer has the matching
(480, 640, 3) uint8 shape. -/
def goodFrame640 : VideoFrameData :=
  { data := { shape := [480, 640, 3], dtype := DType.uint8 }
    width := 640, height := 480, channels := 3
    timestamp := 1, sequence_number := 0, media_type := 0 }

/-- The same declared dimensions with a mis-sized data buffer: 640*480*1
bytes, i.e. a mono-shaped (480, 640) array while channels = 3. -/
def badFrame640 : VideoFrameData :=
  { data := { shape := [480, 640], dtype := DType.uint8 }
    width := 640, height := 480, channels := 3
    timestamp := 1, sequence_number := 0, media_type := 0 }

-- ------------------------------------------------------------------
-- HighSpeedRecorder (src/src/camera/highspeed_recorder.py)
-- The deque with maxlen m keeps the last m appended entries; timestamps
-- produced by time.time() are passed in explicitly as rationals.
-- ------------------------------------------------------------------

/-- Last n elements of a list, in order: what a Python deque with
maxlen = n retains of the sequence appended to it. -/
def takeLast (n : ℕ) (xs : List α) : List α :=
  xs.drop (xs.length - n)

/-- Appending one element to a deque with maxlen = m. -/
def dequeAppend (m : ℕ) (xs : List α) (x : α) : List α :=
  takeLast m (xs ++ [x])

/-- Python int() applied to a rational: truncation toward zero. -/
def pyInt (q : ℚ) : Int :=
  if 0 ≤ q then q.floor else q.ceil

/-- Buffer capacity computed in HighSpeedRecorder.__init__ and
set_target_fps: int(fps * buffer_duration_sec * 1.2). -/
def max_frames_of (fps dur : ℚ) : ℕ :=
  (pyInt (fps * dur * (6 / 5))).toNat

/-- Mutable state of a HighSpeedRecorder instance. Frames are abstracted
to natural-number identities; a frame copy is value-equal to its source. -/
structure RecorderState where
  target_fps : ℚ
  buffer_duration_sec : ℚ
  playback_fps : ℚ
  max_frames : ℕ
  buffer : List (ℚ × ℕ)
  fps_window : List ℚ
  last_fps_calc : ℚ
  cached_fps : ℚ
  is_recording : Bool
  recording_frames : List (ℚ × ℕ)
  latest_frame : Option ℕ
deriving DecidableEq, Repr

/-- HighSpeedRecorder.__init__(target_fps, buffer_duration_sec, playback_fps). -/
def init_recorder (fps dur pfps : ℚ) : RecorderState :=
  { target_fps := fps
    buffer_duration_sec := dur
    playback_fps := pfps
    max_frames := max_frames_of fps dur
    buffer := []
    fps_window := []
    last_fps_calc := 0
    cached_fps := 0
    is_recording := false
    recording_frames := []
    latest_frame := none }

/-- HighSpeedRecorder.add_frame, with the time.time() reading passed as
now. The frame copy goes to the preview slot, the ring buffer (maxlen
max_frames), the 60-entry FPS window, and, while recording, the
recording list. -/
def add_frame (now : ℚ) (frame : ℕ) (s : RecorderState) : RecorderState :=
  { s with
    latest_frame := some frame
    buffer := dequeAppend s.max_frames s.buffer (now, frame)
    fps_window := dequeAppend 60 s.fps_window now
    recording_frames :=
      if s.is_recording then s.recording_frames ++ [(now, frame)]
      else s.recording_frames }

/-- HighSpeedRecorder.get_latest_frame: a copy of the preview slot. -/
def get_latest_frame (s : RecorderState) : Option ℕ :=
  s.latest_frame

/-- HighSpeedRecorder.set_target_fps: recreates the deque from the old
entries with the new maxlen, so the last new_max entries survive. -/
def set_target_fps (fps : ℚ) (s : RecorderState) : RecorderState :=
  { s with
    target_fps := fps
    max_frames := max_frames_of fps s.buffer_duration_sec
    buffer := takeLast (max_frames_of fps s.buffer_duration_sec) s.buffer }

/-- HighSpeedRecorder.clear_buffer: empties the ring buffer, the recording
list and the FPS window; the preview slot and the FPS cache survive. -/
def clear_buffer (s : RecorderState) : RecorderState :=
  { s with buffer := [], recording_frames := [], fps_window := [] }

/-- HighSpeedRecorder.get_actual_fps at wall-clock time now: within 0.2s
of the last recomputation the cached value is returned unchanged; on a
recomputation with fewer than 2 samples, 0 is returned without touching
the cache; otherwise (count - 1) / span is computed and cached. -/
def get_actual_fps (now : ℚ) (s : RecorderState) : ℚ × RecorderState :=
  if now - s.last_fps_calc < 1 / 5 then (s.cached_fps, s)
  else if s.fps_window.length < 2 then (0, s)
  else
    let oldest := s.fps_window.headD 0
    let newest := s.fps_window.getLastD 0
    let span := newest - oldest
    let fps := if 0 < span then ((s.fps_window.length : ℚ) - 1) / span else 0
    (fps, { s with cached_fps := fps, last_fps_calc := now })

/-- HighSpeedRecorder.start_recording. -/
def start_recording (s : RecorderState) : RecorderState :=
  { s with is_recording := true, recording_frames := [] }

/-- HighSpeedRecorder.stop_recording (the returned count is irrelevant
to the claims). -/
def stop_recording (s : RecorderState) : RecorderState :=
  { s with is_recording := false }

/-- Duration filter of HighSpeedRecorder.save_slowmo_clip: keep the
entries with timestamp at least newest - duration. -/
def windowFilterList (b : List (ℚ × ℕ)) (d : ℚ) : List (ℚ × ℕ) :=
  b.filter (fun e => decide ((b.getLastD (0, 0)).1 - d ≤ e.1))

/-- Frame-selection phase of HighSpeedRecorder.save_slowmo_clip (the part
under the lock): none models the early return None on insufficient
frames; some frames means the clip is written from those frames. -/
def select_clip_frames (s : RecorderState) (duration_sec : Option ℚ)
    (use_recording_buffer : Bool) : Option (List (ℚ × ℕ)) :=
  let source :=
    if use_recording_buffer && !s.recording_frames.isEmpty then s.recording_frames
    else s.buffer
  if source.length < 2 then none
  else
    let source2 :=
      match duration_sec with
      | none => source
      | some d => windowFilterList source d
    if source2.length < 2 then none else some source2

/-- Operations a caller can interleave on one HighSpeedRecorder. -/
inductive RecOp
  | push (now : ℚ) (frame : ℕ)
  | setFps (fps : ℚ)
  | clear
  | startRec
  | stopRec
  | fpsQuery (now : ℚ)
deriving DecidableEq, Repr

/-- Whether an operation is an add_frame call. -/
def RecOp.isPush : RecOp → Bool
  | .push _ _ => true
  | _ => false

/-- Apply one operation to the recorder state. -/
def applyRecOp (s : RecorderState) : RecOp → RecorderState
  | .push now frame => add_frame now frame s
  | .setFps fps => set_target_fps fps s
  | .clear => clear_buffer s
  | .startRec => start_recording s
  | .stopRec => stop_recording s
  | .fpsQuery now => (get_actual_fps now s).2

/-- Run a sequence of interleaved recorder operations. -/
def run_ops (s : RecorderState) (ops : List RecOp) : RecorderState :=
  ops.foldl applyRecOp s

/-- Run a sequence of add_frame calls given as (timestamp, frame) pairs. -/
def run_pushes (s : RecorderState) (ps : List (ℚ × ℕ)) : RecorderState :=
  ps.foldl (fun st p => add_frame p.1 p.2 st) s

-- ------------------------------------------------------------------
-- CameraDevice timeout policy (src/src/camera/device.py, capture_frames)
-- ------------------------------------------------------------------

/-- Outcome of one CameraGetImageBuffer pull: a timeout status or a
successfully captured frame. -/
inductive PullEvent
  | timeout
  | success (frame : ℕ)
deriving DecidableEq, Repr

/-- Timeout-policy state of the capture loop: the consecutive-timeout
counter and the number of reconnect attempts observed so far. -/
structure CaptureState where
  timeout_count : ℕ
  reconnects : ℕ
deriving DecidableEq, Repr

/-- Capture state of a freshly entered device. -/
def initCapture : CaptureState :=
  { timeout_count := 0, reconnects := 0 }

/-- One iteration of the timeout handling in CameraDevice.capture_frames:
a successful pull yields the frame and leaves the counter untouched; a
timeout increments the counter and, once it reaches the limit, attempts a
reconnect and resets the counter to 0 whether or not the reconnect worked. -/
def capture_step (limit : ℕ) (s : CaptureState) : PullEvent → CaptureState
  | .success _ => s
  | .timeout =>
    let c := s.timeout_count + 1
    if limit ≤ c then { timeout_count := 0, reconnects := s.reconnects + 1 }
    else { s with timeout_count := c }

/-- Run the capture loop over a sequence of pull outcomes. -/
def capture_run (limit : ℕ) (s : CaptureState) (evs : List PullEvent) : CaptureState :=
  evs.foldl (capture_step limit) s

-- ------------------------------------------------------------------
-- CameraDevice lifecycle (src/src/camera/device.py)
-- The SDK is an oracle saying which native call succeeds; the world
-- tracks the process-wide _active_devices registry and the counts of
-- live native handles and aligned frame buffers.
-- ------------------------------------------------------------------

/-- Success pattern of the native SDK calls made during initialization. -/
structure SdkOracle where
  enumOk : Bool
  deviceCount : ℕ
  initOk : Bool
  capOk : Bool
  fmtOk : Bool
  trigOk : Bool
  speedOk : Bool
  aeOk : Bool
  expOk : Bool
  mallocOk : Bool
  playOk : Bool
deriving DecidableEq, Repr

/-- Oracle in which every native call succeeds. -/
def allOk (o : SdkOracle) : Prop :=
  o.enumOk ∧ o.initOk ∧ o.capOk ∧ o.fmtOk ∧ o.trigOk ∧ o.speedOk ∧
    o.aeOk ∧ o.expOk ∧ o.mallocOk ∧ o.playOk

instance (o : SdkOracle) : Decidable (allOk o) := by
  unfold allOk
  infer_instance

/-- Process-wide resources: the CameraDevice._active_devices registry and
counts of currently allocated native handles and frame buffers. -/
structure World where
  activeDevices : Finset ℕ
  liveHandles : ℕ
  liveBuffers : ℕ
deriving DecidableEq

/-- Per-instance fields of a CameraDevice relevant to open and close. -/
structure DevState where
  handle : Option ℕ
  frameBuffer : Option ℕ
  isInit : Bool
deriving DecidableEq, Repr

/-- Fields of a freshly constructed CameraDevice (before __enter__). -/
def freshDev : DevState :=
  { handle := none, frameBuffer := none, isInit := false }

/-- Errors surfaced by the lifecycle: CameraAccessDenied, a wrapped SDK
failure, or the device-index-not-found CameraException. -/
inductive CamError
  | accessDenied
  | camFail
  | indexNotFound
deriving DecidableEq, Repr

/-- Cleanup block of CameraDevice._initialize on an SDK failure: frees
the native handle and the frame buffer when present (the fields
themselves are not cleared by that block). -/
def mv_cleanup (w : World) (d : DevState) : World :=
  let w1 := if d.handle.isSome then { w with liveHandles := w.liveHandles - 1 } else w
  if d.frameBuffer.isSome then { w1 with liveBuffers := w1.liveBuffers - 1 } else w1

/-- CameraDevice._initialize: the native call sequence, allocating the
handle after CameraInit and the aligned buffer after CameraAlignMalloc;
any SDK failure runs the cleanup block and reports camFail; an
out-of-range device index raises before any allocation. -/
def init_device (o : SdkOracle) (idx : ℕ) (w : World) (d : DevState) :
    World × DevState × Option CamError :=
  if !o.enumOk then (mv_cleanup w d, d, some CamError.camFail)
  else if o.deviceCount ≤ idx then (w, d, some CamError.indexNotFound)
  else if !o.initOk then (mv_cleanup w d, d, some CamError.camFail)
  else
    let w1 := { w with liveHandles := w.liveHandles + 1 }
    let d1 := { d with handle := some idx }
    if !o.capOk then (mv_cleanup w1 d1, d1, some CamError.camFail)
    else if !o.fmtOk then (mv_cleanup w1 d1, d1, some CamError.camFail)
    else if !o.trigOk then (mv_cleanup w1 d1, d1, some CamError.camFail)
    else if !o.speedOk then (mv_cleanup w1 d1, d1, some CamError.camFail)
    else if !o.aeOk then (mv_cleanup w1 d1, d1, some CamError.camFail)
    else if !o.expOk then (mv_cleanup w1 d1, d1, some CamError.camFail)
    else if !o.mallocOk then (mv_cleanup w1 d1, d1, some CamError.camFail)
    else
      let w2 := { w1 with liveBuffers := w1.liveBuffers + 1 }
      let d2 := { d1 with frameBuffer := some idx }
      if !o.playOk then (mv_cleanup w2 d2, d2, some CamError.camFail)
      else (w2, { d2 with isInit := true }, none)

/-- CameraDevice.__enter__: fails fast with CameraAccessDenied when the
index is already registered, before any native call; otherwise registers
the index, runs _initialize, and on any failure (the except branch)
removes the registration again before propagating the error. -/
def enter_dev (o : SdkOracle) (idx : ℕ) (w : World) (d : DevState) :
    World × DevState × Option CamError :=
  if idx ∈ w.activeDevices then (w, d, some CamError.accessDenied)
  else
    let r := init_device o idx { w with activeDevices := insert idx w.activeDevices } d
    if r.2.2 = none then r
    else ({ r.1 with activeDevices := r.1.activeDevices.erase idx }, r.2.1, r.2.2)

/-- Release actions attempted by CameraDevice.__exit__. -/
inductive RelAction
  | freeBuffer
  | unInit
deriving DecidableEq, Repr

/-- CameraDevice.__exit__: clears the initialized flag; frees the frame
buffer when its field is set and clears the field (in a finally block, so
an SDK failure during the free is swallowed and the field is still
cleared); frees the native handle the same way; then discards the index
from the registry. The sequence of those steps amounts to the record
below; the returned list is the log of attempted release actions, in
source order (buffer free before handle uninit). Close never raises:
the function is total. -/
def close_dev (idx : ℕ) (w : World) (d : DevState) :
    World × DevState × List RelAction :=
  ({ activeDevices := w.activeDevices.erase idx
     liveHandles := if d.handle.isSome then w.liveHandles - 1 else w.liveHandles
     liveBuffers := if d.frameBuffer.isSome then w.liveBuffers - 1 else w.liveBuffers },
   { handle := none, frameBuffer := none, isInit := false },
   (if d.frameBuffer.isSome then [RelAction.freeBuffer] else []) ++
     (if d.handle.isSome then [RelAction.unInit] else []))

-- ------------------------------------------------------------------
-- Helper lemmas about deques and sorted lists
-- ------------------------------------------------------------------

/-- Length of the last-n slice. -/
theorem takeLast_length (n : ℕ) (xs : List α) :
    (takeLast n xs).length = min xs.length n := by
  simp only [takeLast, List.length_drop]
  omega

/-- The last-n slice is a suffix of the list. -/
theorem takeLast_suffix (n : ℕ) (xs : List α) : takeLast n xs <:+ xs :=
  List.drop_suffix _ _

/-- Appending to a bounded deque keeps min (old length + 1) maxlen entries. -/
theorem dequeAppend_length (m : ℕ) (xs : List α) (x : α) :
    (dequeAppend m xs x).length = min (xs.length + 1) m := by
  simp [dequeAppend, takeLast_length]

/-- The deque after an append is a suffix of the old entries plus the new one. -/
theorem dequeAppend_suffix (m : ℕ) (xs : List α) (x : α) :
    dequeAppend m xs x <:+ xs ++ [x] :=
  takeLast_suffix _ _

/-- Appending to a full bounded deque evicts exactly the oldest entry and
keeps all others in order. -/
theorem dequeAppend_full (m : ℕ) (xs : List α) (x : α) (hlen : xs.length = m)
    (hm : 1 ≤ m) : dequeAppend m xs x = xs.tail ++ [x] := by
  have h1 : (xs ++ [x]).length - m = 1 := by
    simp [List.length_append, hlen]
  unfold dequeAppend takeLast
  rw [h1, List.drop_append_of_le_length (by omega), List.drop_one]

/-- A suffix stays a suffix after appending the same tail on both sides. -/
theorem suffix_append_same {l1 l2 t : List α} (h : l1 <:+ l2) :
    l1 ++ t <:+ l2 ++ t := by
  obtain ⟨c, hc⟩ := h
  exact ⟨c, by rw [← hc, List.append_assoc]⟩

/-- Filtering a timestamp-sorted list by a lower timestamp bound keeps a
contiguous suffix of it. -/
theorem sorted_filter_suffix (c : ℚ) (l : List (ℚ × ℕ))
    (h : List.Sorted (· ≤ ·) (l.map Prod.fst)) :
    l.filter (fun e => decide (c ≤ e.1)) <:+ l := by
  induction l with
  | nil => simp
  | cons a l ih =>
    rw [List.map_cons, List.sorted_cons] at h
    by_cases hc : c ≤ a.1
    · have hall : ∀ e ∈ l, (fun e : ℚ × ℕ => decide (c ≤ e.1)) e = true := by
        intro e he
        simp only [decide_eq_true_eq]
        exact le_trans hc (h.1 _ (List.mem_map_of_mem _ he))
      rw [List.filter_cons_of_pos (by simpa using hc), List.filter_eq_self.mpr hall]
    · rw [List.filter_cons_of_neg (by simpa using hc)]
      exact (ih h.2).trans (List.suffix_cons a l)

/-- The ring buffer after a run of add_frame calls is a suffix of the old
buffer followed by the pushed entries. -/
theorem run_pushes_buffer_suffix (ps : List (ℚ × ℕ)) (s : RecorderState) :
    (run_pushes s ps).buffer <:+ s.buffer ++ ps := by
  induction ps generalizing s with
  | nil => simp [run_pushes]
  | cons p ps ih =>
    have hstep : run_pushes s (p :: ps) = run_pushes (add_frame p.1 p.2 s) ps := rfl
    have h1 := ih (add_frame p.1 p.2 s)
    have h2 : (add_frame p.1 p.2 s).buffer ++ ps <:+ (s.buffer ++ [p]) ++ ps := by
      have := dequeAppend_suffix s.max_frames s.buffer (p.1, p.2)
      exact suffix_append_same (by simpa [add_frame] using this)
    have h3 : s.buffer ++ p :: ps = (s.buffer ++ [p]) ++ ps := by simp
    rw [hstep, h3]
    exact h1.trans h2

/-- get_actual_fps never changes the buffer, the capacity, the preview
slot or the FPS sample window. -/
theorem get_actual_fps_preserves (now : ℚ) (s : RecorderState) :
    (get_actual_fps now s).2.buffer = s.buffer ∧
    (get_actual_fps now s).2.max_frames = s.max_frames ∧
    (get_actual_fps now s).2.latest_frame = s.latest_frame ∧
    (get_actual_fps now s).2.fps_window = s.fps_window := by
  unfold get_actual_fps
  split_ifs <;> exact ⟨rfl, rfl, rfl, rfl⟩

/-- After any run of recorder operations, the preview slot is empty iff
the run from a fresh recorder contained no add_frame call. -/
theorem run_ops_latest_none (ops : List RecOp) :
    ∀ s : RecorderState,
      get_latest_frame (run_ops s ops) = none ↔
        (s.latest_frame = none ∧ ops.all (fun op => !op.isPush) = true) := by
  induction ops with
  | nil => intro s; simp [run_ops, get_latest_frame]
  | cons op ops ih =>
    intro s
    have hstep : run_ops s (op :: ops) = run_ops (applyRecOp s op) ops := rfl
    rw [hstep, ih]
    cases op with
    | push now frame => simp [applyRecOp, add_frame, RecOp.isPush]
    | setFps fps => simp [applyRecOp, set_target_fps, RecOp.isPush]
    | clear => simp [applyRecOp, clear_buffer, RecOp.isPush]
    | startRec => simp [applyRecOp, start_recording, RecOp.isPush]
    | stopRec => simp [applyRecOp, stop_recording, RecOp.isPush]
    | fpsQuery now =>
      simp [applyRecOp, RecOp.isPush, (get_actual_fps_preserves now s).2.2.1]

-- ------------------------------------------------------------------
-- Claim theorems
-- ------------------------------------------------------------------

/-- C3: a session gate acquire that succeeded for id1 succeeds again for
id1 (idempotent retry), fails for a distinct id2 without changing the
state, succeeds for id2 once id1 released its session, and a release with
an unknown or mismatched id leaves the active session unchanged. -/
theorem c3_session_gate (s : Option String) (id1 id2 : String) (hne : id1 ≠ id2)
    (hacq : (try_start_session s id1).1 = true) :
    (try_start_session (try_start_session s id1).2 id1).1 = true ∧
    try_start_session (try_start_session s id1).2 id2 =
      (false, (try_start_session s id1).2) ∧
    (try_start_session (end_session (try_start_session s id1).2 id1) id2).1 = true ∧
    (∀ s2 : Option String, s2 ≠ some id2 → end_session s2 id2 = s2) := by
  have hstate : (try_start_session s id1).2 = some id1 := by
    cases s with
    | none => rfl
    | some h =>
      by_cases hh : h = id1
      · simp [try_start_session, hh]
      · simp [try_start_session, hh] at hacq
  refine ⟨?_, ?_, ?_, ?_⟩
  · rw [hstate]; simp [try_start_session]
  · rw [hstate]; simp [try_start_session, hne]
  · rw [hstate]; simp [end_session, try_start_session]
  · intro s2 hs2
    cases s2 with
    | none => rfl
    | some h =>
      have hh : h ≠ id2 := fun he => hs2 (by rw [he])
      simp [end_session, hh]

/-- Witness for c3_session_gate at the concrete scenario of the spec:
fresh gate, sessions "a" and "b". -/
theorem c3_session_gate_witness :
    (("a" : String) ≠ "b" ∧ (try_start_session none "a").1 = true) ∧
    ((try_start_session (try_start_session none "a").2 "a").1 = true ∧
      try_start_session (try_start_session none "a").2 "b" =
        (false, (try_start_session none "a").2) ∧
      (try_start_session (end_session (try_start_session none "a").2 "a") "b").1 = true ∧
      (∀ s2 : Option String, s2 ≠ some "b" → end_session s2 "b" = s2)) :=
  ⟨⟨by decide, rfl⟩, c3_session_gate none "a" "b" (by decide) rfl⟩

/-- C7: frame validation accepts only frames whose channel count is 1 or
3, whose dimensions are positive, and whose data shape matches the
declared dimensions; the concrete 640x480x3 frame with a matching uint8
buffer validates, and the same dimensions with a mono-sized buffer are
rejected at the shape check. -/
theorem c7_frame_validation (f : VideoFrameData)
    (h : validate_video_frame f = Except.ok ()) :
    ((f.channels = 1 ∨ f.channels = 3) ∧ 0 < f.width ∧ 0 < f.height ∧
      f.data.shape = expected_shape f) ∧
    validate_video_frame goodFrame640 = Except.ok () ∧
    validate_video_frame badFrame640 = Except.error "Frame data shape mismatch" := by
  refine ⟨?_, rfl, rfl⟩
  unfold validate_video_frame at h
  split_ifs at h with h1 h2 h3 h4 h5 h6
  push_neg at h1 h2
  exact ⟨or_iff_not_imp_left.mpr h1, by omega, by omega, not_not.mp h3⟩

/-- Witness for c7_frame_validation at the valid 640x480x3 frame. -/
theorem c7_frame_validation_witness :
    validate_video_frame goodFrame640 = Except.ok () ∧
    (((goodFrame640.channels = 1 ∨ goodFrame640.channels = 3) ∧
        0 < goodFrame640.width ∧ 0 < goodFrame640.height ∧
        goodFrame640.data.shape = expected_shape goodFrame640) ∧
      validate_video_frame goodFrame640 = Except.ok () ∧
      validate_video_frame badFrame640 = Except.error "Frame data shape mismatch") :=
  ⟨rfl, c7_frame_validation goodFrame640 rfl⟩

/-- C10: clear_buffer does not clear the cached preview frame: after an
add_frame followed by clear_buffer the preview query still returns the
pushed frame, and over any run of operations on a fresh recorder the
preview query returns none exactly when no frame was ever pushed. -/
theorem c10_latest_frame_survives_clear (ops : List RecOp) (s : RecorderState)
    (t : ℚ) (f : ℕ) :
    get_latest_frame (clear_buffer (add_frame t f s)) = some f ∧
    (get_latest_frame (run_ops (init_recorder 60 5 30) ops) = none ↔
      ops.all (fun op => !op.isPush) = true) := by
  constructor
  · simp [get_latest_frame, clear_buffer, add_frame]
  · rw [run_ops_latest_none]
    simp [init_recorder]

/-- C1 (code evaluation at the failing input): after timeout_limit - 1 = 9
consecutive timeouts followed by one successful frame, no reconnect has
been attempted, but the consecutive-timeout counter still stands at 9
rather than the 0 the spec demands, so a single further timeout drives it
to the limit of 10 and a reconnect is attempted. -/
theorem c1_timeout_counter_not_reset_on_success :
    (capture_run 10 initCapture
        (List.replicate 9 PullEvent.timeout ++ [PullEvent.success 0])).reconnects = 0 ∧
    (capture_run 10 initCapture
        (List.replicate 9 PullEvent.timeout ++ [PullEvent.success 0])).timeout_count = 9 ∧
    (capture_run 10 initCapture
        ((List.replicate 9 PullEvent.timeout ++ [PullEvent.success 0]) ++
          [PullEvent.timeout])).reconnects = 1 := by
  decide

/-- Recorder holding exactly two frames 0.1 seconds apart. -/
def shortBufferRec : RecorderState :=
  add_frame (11 / 10) 1 (add_frame 1 0 (init_recorder 60 5 30))

/-- Capacity of the default 60 fps, 5 second recorder. -/
theorem max_frames_of_60_5 : max_frames_of 60 5 = 360 := by
  have h1 : (60 : ℚ) * 5 * (6 / 5) = 360 := by norm_num
  rw [max_frames_of, h1, pyInt, if_pos (by norm_num)]
  simp [Rat.floor]

/-- The two-frame recorder buffers exactly its two pushes. -/
theorem shortBufferRec_buffer :
    shortBufferRec.buffer = [(1, 0), (11 / 10, 1)] := by
  simp [shortBufferRec, add_frame, init_recorder, max_frames_of_60_5,
    dequeAppend, takeLast]

/-- C2 (counterexample): with only 0.1 seconds of footage buffered, a
request for a 2-second clip is not rejected: the selection succeeds and
the whole 0.1-second buffer is written, silently shorter than requested. -/
theorem c2_short_clip_counterexample :
    select_clip_frames shortBufferRec (some 2) false = some [(1, 0), (11 / 10, 1)] ∧
    (shortBufferRec.buffer.getLastD (0, 0)).1 -
      (shortBufferRec.buffer.headD (0, 0)).1 < 2 := by
  constructor
  · rw [select_clip_frames]
    norm_num [shortBufferRec_buffer, windowFilterList, List.filter, List.getLastD]
  · rw [shortBufferRec_buffer]
    norm_num [List.getLastD]

/-- C2 (amended): the duration-limited export fails (returns None)
exactly when fewer than 2 buffered frames have timestamp within the
requested duration of the newest buffered timestamp — buffered duration
itself is never compared against the requested duration. -/
theorem c2_clip_export_failure_iff (s : RecorderState) (d : ℚ) :
    select_clip_frames s (some d) false = none ↔
      (windowFilterList s.buffer d).length < 2 := by
  unfold select_clip_frames
  simp only [Bool.false_and, Bool.false_eq_true, if_false]
  by_cases h1 : s.buffer.length < 2
  · rw [if_pos h1]
    have hle := List.length_filter_le
      (fun e : ℚ × ℕ => decide ((s.buffer.getLastD (0, 0)).1 - d ≤ e.1)) s.buffer
    unfold windowFilterList
    constructor
    · intro _; omega
    · intro _; rfl
  · rw [if_neg h1]
    by_cases h2 : (windowFilterList s.buffer d).length < 2
    · simp [h2]
    · simp [h2]

/-- Recorder whose FPS cache was filled at t = 10 from two samples one
second apart, after which the buffers were cleared. -/
def clearedFpsRec : RecorderState :=
  clear_buffer
    (get_actual_fps 10 (add_frame 1 1 (add_frame 0 0 (init_recorder 60 5 30)))).2

/-- C9 (counterexample): 0.1 seconds after the last recomputation, and
with zero retained timestamp samples, the measured-FPS query returns the
cached value 1, not 0. -/
theorem c9_cached_fps_counterexample :
    clearedFpsRec.fps_window.length < 2 ∧
    (get_actual_fps (101 / 10) clearedFpsRec).1 = 1 := by
  have heval : clearedFpsRec.fps_window = [] ∧ clearedFpsRec.cached_fps = 1 ∧
      clearedFpsRec.last_fps_calc = 10 := by
    refine ⟨?_, ?_, ?_⟩ <;>
      norm_num [clearedFpsRec, clear_buffer, get_actual_fps, add_frame,
        init_recorder, dequeAppend, takeLast, List.getLastD]
  obtain ⟨hw, hc, hl⟩ := heval
  constructor
  · rw [hw]; norm_num
  · unfold get_actual_fps
    rw [hl, hc, if_pos (by norm_num)]

/-- C9 (amended): calls within 0.2 seconds of the last recomputation
return the cached value unchanged, regardless of the retained sample
count; on a recomputation (at least 0.2 seconds later), fewer than 2
retained samples yield 0, and otherwise the result is
(sample count - 1) / (newest - oldest) and the computation time is
cached. -/
theorem c9_fps_amended (s : RecorderState) (now : ℚ) :
    (now - s.last_fps_calc < 1 / 5 →
      (get_actual_fps now s).1 = s.cached_fps ∧ (get_actual_fps now s).2 = s) ∧
    (1 / 5 ≤ now - s.last_fps_calc → s.fps_window.length < 2 →
      (get_actual_fps now s).1 = 0) ∧
    (1 / 5 ≤ now - s.last_fps_calc → 2 ≤ s.fps_window.length →
      0 < s.fps_window.getLastD 0 - s.fps_window.headD 0 →
      (get_actual_fps now s).1 =
        ((s.fps_window.length : ℚ) - 1) /
          (s.fps_window.getLastD 0 - s.fps_window.headD 0) ∧
      (get_actual_fps now s).2.last_fps_calc = now) := by
  refine ⟨?_, ?_, ?_⟩
  · intro h
    unfold get_actual_fps
    rw [if_pos h]
    exact ⟨rfl, rfl⟩
  · intro h hlen
    unfold get_actual_fps
    rw [if_neg (not_lt.mpr h), if_pos hlen]
  · intro h hlen hspan
    unfold get_actual_fps
    rw [if_neg (not_lt.mpr h), if_neg (by omega)]
    simp only [if_pos hspan]
    constructor <;> trivial

/-- Witness for c9_fps_amended at a fresh recorder queried at t = 1. -/
theorem c9_fps_amended_witness :
    ((1 : ℚ) - (init_recorder 60 5 30).last_fps_calc < 1 / 5 →
      (get_actual_fps 1 (init_recorder 60 5 30)).1 = (init_recorder 60 5 30).cached_fps ∧
      (get_actual_fps 1 (init_recorder 60 5 30)).2 = init_recorder 60 5 30) ∧
    (1 / 5 ≤ (1 : ℚ) - (init_recorder 60 5 30).last_fps_calc →
      (init_recorder 60 5 30).fps_window.length < 2 →
      (get_actual_fps 1 (init_recorder 60 5 30)).1 = 0) ∧
    (1 / 5 ≤ (1 : ℚ) - (init_recorder 60 5 30).last_fps_calc →
      2 ≤ (init_recorder 60 5 30).fps_window.length →
      0 < (init_recorder 60 5 30).fps_window.getLastD 0 -
          (init_recorder 60 5 30).fps_window.headD 0 →
      (get_actual_fps 1 (init_recorder 60 5 30)).1 =
        (((init_recorder 60 5 30).fps_window.length : ℚ) - 1) /
          ((init_recorder 60 5 30).fps_window.getLastD 0 -
            (init_recorder 60 5 30).fps_window.headD 0) ∧
      (get_actual_fps 1 (init_recorder 60 5 30)).2.last_fps_calc = 1) :=
  c9_fps_amended (init_recorder 60 5 30) 1

/-- C4: over any sequence of add_frame pushes with non-decreasing
timestamps (successive time.time readings), the duration filter of the
export path returns only entries with timestamp at least the newest
buffered timestamp minus the duration, in non-decreasing timestamp order,
and the result is a contiguous suffix of the buffer, never a gapped
subset. -/
theorem c4_window_suffix_sorted (ps : List (ℚ × ℕ)) (d : ℚ)
    (hs : List.Sorted (· ≤ ·) (ps.map Prod.fst)) :
    (∀ e ∈ windowFilterList (run_pushes (init_recorder 60 5 30) ps).buffer d,
      ((run_pushes (init_recorder 60 5 30) ps).buffer.getLastD (0, 0)).1 - d ≤ e.1) ∧
    List.Sorted (· ≤ ·)
      ((windowFilterList (run_pushes (init_recorder 60 5 30) ps).buffer d).map
        Prod.fst) ∧
    windowFilterList (run_pushes (init_recorder 60 5 30) ps).buffer d <:+
      (run_pushes (init_recorder 60 5 30) ps).buffer := by
  have hsuffix : (run_pushes (init_recorder 60 5 30) ps).buffer <:+ ps := by
    have h := run_pushes_buffer_suffix ps (init_recorder 60 5 30)
    simpa [init_recorder] using h
  have hbs : List.Sorted (· ≤ ·)
      ((run_pushes (init_recorder 60 5 30) ps).buffer.map Prod.fst) :=
    hs.sublist (hsuffix.sublist.map Prod.fst)
  refine ⟨?_, ?_, ?_⟩
  · intro e he
    have hmem := List.mem_filter.mp he
    exact of_decide_eq_true hmem.2
  · exact hbs.sublist
      ((List.filter_sublist (run_pushes (init_recorder 60 5 30) ps).buffer).map
        Prod.fst)
  · exact sorted_filter_suffix _ _ hbs

/-- Witness for c4_window_suffix_sorted: three pushes at t = 0, 1, 2 with
a 1.5-second window. -/
theorem c4_window_suffix_sorted_witness :
    List.Sorted (· ≤ ·) (([((0 : ℚ), (0 : ℕ)), (1, 1), (2, 2)]).map Prod.fst) ∧
    ((∀ e ∈ windowFilterList
        (run_pushes (init_recorder 60 5 30) [((0 : ℚ), (0 : ℕ)), (1, 1), (2, 2)]).buffer
        (3 / 2),
      ((run_pushes (init_recorder 60 5 30)
          [((0 : ℚ), (0 : ℕ)), (1, 1), (2, 2)]).buffer.getLastD (0, 0)).1 - 3 / 2 ≤
        e.1) ∧
    List.Sorted (· ≤ ·)
      ((windowFilterList
          (run_pushes (init_recorder 60 5 30)
            [((0 : ℚ), (0 : ℕ)), (1, 1), (2, 2)]).buffer (3 / 2)).map Prod.fst) ∧
    windowFilterList
        (run_pushes (init_recorder 60 5 30)
          [((0 : ℚ), (0 : ℕ)), (1, 1), (2, 2)]).buffer (3 / 2) <:+
      (run_pushes (init_recorder 60 5 30)
        [((0 : ℚ), (0 : ℕ)), (1, 1), (2, 2)]).buffer) :=
  have hs : List.Sorted (· ≤ ·) (([((0 : ℚ), (0 : ℕ)), (1, 1), (2, 2)]).map Prod.fst) := by
    norm_num [List.sorted_cons]
  ⟨hs, c4_window_suffix_sorted [((0 : ℚ), (0 : ℕ)), (1, 1), (2, 2)] (3 / 2) hs⟩

/-- Interleaving add_frame, set_target_fps and the other recorder
operations never lets the ring buffer exceed its current capacity. -/
theorem run_ops_buffer_le (ops : List RecOp) :
    ∀ s : RecorderState, s.buffer.length ≤ s.max_frames →
      (run_ops s ops).buffer.length ≤ (run_ops s ops).max_frames := by
  induction ops with
  | nil => intro s h; exact h
  | cons op ops ih =>
    intro s h
    have hstep : run_ops s (op :: ops) = run_ops (applyRecOp s op) ops := rfl
    rw [hstep]
    refine ih (applyRecOp s op) ?_
    cases op with
    | push now frame =>
      show (dequeAppend s.max_frames s.buffer (now, frame)).length ≤ s.max_frames
      rw [dequeAppend_length]
      omega
    | setFps fps =>
      show (takeLast (max_frames_of fps s.buffer_duration_sec) s.buffer).length ≤
        max_frames_of fps s.buffer_duration_sec
      rw [takeLast_length]
      omega
    | clear => show ([] : List (ℚ × ℕ)).length ≤ s.max_frames; simp
    | startRec => exact h
    | stopRec => exact h
    | fpsQuery now =>
      have hb := (get_actual_fps_preserves now s).1
      have hm := (get_actual_fps_preserves now s).2.1
      show (get_actual_fps now s).2.buffer.length ≤ (get_actual_fps now s).2.max_frames
      rw [hb, hm]
      exact h

/-- C5: the ring buffer never exceeds its configured capacity
int(target_fps * buffer_duration_sec * 1.2) under any interleaving of
operations; a push into a full buffer evicts exactly the oldest entry
and keeps all others in order; and a set_target_fps resize keeps a
suffix of the old entries up to the new capacity, dropping oldest. -/
theorem c5_capacity_invariant (ops : List RecOp) (fps dur pfps : ℚ)
    (s : RecorderState) (t : ℚ) (fr : ℕ)
    (hfull : s.buffer.length = s.max_frames) (hpos : 1 ≤ s.max_frames) :
    (run_ops (init_recorder fps dur pfps) ops).buffer.length ≤
      (run_ops (init_recorder fps dur pfps) ops).max_frames ∧
    (init_recorder fps dur pfps).max_frames = (pyInt (fps * dur * (6 / 5))).toNat ∧
    (add_frame t fr s).buffer = s.buffer.tail ++ [(t, fr)] ∧
    (set_target_fps fps s).buffer <:+ s.buffer ∧
    (set_target_fps fps s).buffer.length =
      min (max_frames_of fps s.buffer_duration_sec) s.buffer.length ∧
    (set_target_fps fps s).max_frames = max_frames_of fps s.buffer_duration_sec := by
  refine ⟨run_ops_buffer_le ops _ (by simp [init_recorder]), rfl, ?_, ?_, ?_, rfl⟩
  · show dequeAppend s.max_frames s.buffer (t, fr) = s.buffer.tail ++ [(t, fr)]
    exact dequeAppend_full _ _ _ hfull hpos
  · exact takeLast_suffix _ _
  · show (takeLast (max_frames_of fps s.buffer_duration_sec) s.buffer).length = _
    rw [takeLast_length, Nat.min_comm]

/-- Capacity of a 5 fps recorder with a one-sixth-second window. -/
theorem max_frames_of_5_sixth : max_frames_of 5 (1 / 6) = 1 := by
  have h1 : (5 : ℚ) * (1 / 6) * (6 / 5) = 1 := by norm_num
  rw [max_frames_of, h1, pyInt, if_pos (by norm_num)]
  simp [Rat.floor]

/-- A capacity-1 recorder holding one frame: a full ring buffer. -/
def fullRec : RecorderState := add_frame 0 0 (init_recorder 5 (1 / 6) 30)

/-- Witness for c5_capacity_invariant at the full capacity-1 recorder. -/
theorem c5_capacity_invariant_witness :
    (fullRec.buffer.length = fullRec.max_frames ∧ 1 ≤ fullRec.max_frames) ∧
    ((run_ops (init_recorder 5 (1 / 6) 30) [RecOp.push 1 1]).buffer.length ≤
        (run_ops (init_recorder 5 (1 / 6) 30) [RecOp.push 1 1]).max_frames ∧
      (init_recorder 5 (1 / 6) 30).max_frames =
        (pyInt (5 * (1 / 6) * (6 / 5))).toNat ∧
      (add_frame 1 7 fullRec).buffer = fullRec.buffer.tail ++ [(1, 7)] ∧
      (set_target_fps 5 fullRec).buffer <:+ fullRec.buffer ∧
      (set_target_fps 5 fullRec).buffer.length =
        min (max_frames_of 5 fullRec.buffer_duration_sec) fullRec.buffer.length ∧
      (set_target_fps 5 fullRec).max_frames =
        max_frames_of 5 fullRec.buffer_duration_sec) :=
  have hm : fullRec.max_frames = 1 := max_frames_of_5_sixth
  have hb : fullRec.buffer = [(0, 0)] := by
    show dequeAppend (max_frames_of 5 (1 / 6)) [] (0, 0) = [(0, 0)]
    rw [max_frames_of_5_sixth]
    rfl
  have hfull : fullRec.buffer.length = fullRec.max_frames := by
    rw [hb, hm]
    rfl
  have hpos : 1 ≤ fullRec.max_frames := by rw [hm]
  ⟨⟨hfull, hpos⟩,
    c5_capacity_invariant [RecOp.push 1 1] 5 (1 / 6) 30 fullRec 1 7 hfull hpos⟩

-- ------------------------------------------------------------------
-- Device lifecycle lemmas (C6, C8)
-- ------------------------------------------------------------------

/-- The cleanup block is a no-op on a freshly constructed device. -/
theorem mv_cleanup_fresh (w : World) : mv_cleanup w freshDev = w := by
  simp [mv_cleanup, freshDev]

/-- Initialization on a fresh device either succeeds or, via the cleanup
block, returns every acquired native resource: the world is unchanged. -/
theorem init_device_world (o : SdkOracle) (idx : ℕ) (w : World) :
    (init_device o idx w freshDev).2.2 = none ∨
      (init_device o idx w freshDev).1 = w := by
  by_cases h1 : o.enumOk
  case neg => exact Or.inr (by simp [init_device, h1, mv_cleanup, freshDev])
  by_cases h2 : o.deviceCount ≤ idx
  case pos => exact Or.inr (by simp [init_device, h1, h2])
  by_cases h3 : o.initOk
  case neg => exact Or.inr (by simp [init_device, h1, h2, h3, mv_cleanup, freshDev])
  by_cases h4 : o.capOk
  case neg =>
    exact Or.inr (by simp [init_device, h1, h2, h3, h4, mv_cleanup, freshDev])
  by_cases h5 : o.fmtOk
  case neg =>
    exact Or.inr (by simp [init_device, h1, h2, h3, h4, h5, mv_cleanup, freshDev])
  by_cases h6 : o.trigOk
  case neg =>
    exact Or.inr (by simp [init_device, h1, h2, h3, h4, h5, h6, mv_cleanup, freshDev])
  by_cases h7 : o.speedOk
  case neg =>
    exact Or.inr
      (by simp [init_device, h1, h2, h3, h4, h5, h6, h7, mv_cleanup, freshDev])
  by_cases h8 : o.aeOk
  case neg =>
    exact Or.inr
      (by simp [init_device, h1, h2, h3, h4, h5, h6, h7, h8, mv_cleanup, freshDev])
  by_cases h9 : o.expOk
  case neg =>
    exact Or.inr
      (by simp [init_device, h1, h2, h3, h4, h5, h6, h7, h8, h9, mv_cleanup, freshDev])
  by_cases h10 : o.mallocOk
  case neg =>
    exact Or.inr
      (by simp [init_device, h1, h2, h3, h4, h5, h6, h7, h8, h9, h10, mv_cleanup,
        freshDev])
  by_cases h11 : o.playOk
  case neg =>
    exact Or.inr
      (by simp [init_device, h1, h2, h3, h4, h5, h6, h7, h8, h9, h10, h11, mv_cleanup,
        freshDev])
  exact Or.inl
    (by simp [init_device, h1, h2, h3, h4, h5, h6, h7, h8, h9, h10, h11])

/-- C6: opening an index that is already registered fails fast with
CameraAccessDenied and touches nothing; any failure after registration
removes the registration and returns every acquired native resource, so
the whole world is restored; and with a healthy SDK, an open of the index
freed by the owner's close succeeds and leaves the device streaming. -/
theorem c6_open_exclusive_cleanup (o : SdkOracle) (w : World) (idx : ℕ)
    (dOwner : DevState) :
    (idx ∈ w.activeDevices →
      enter_dev o idx w freshDev = (w, freshDev, some CamError.accessDenied)) ∧
    (idx ∉ w.activeDevices → ∀ e : CamError,
      (enter_dev o idx w freshDev).2.2 = some e →
      (enter_dev o idx w freshDev).1 = w) ∧
    (allOk o → idx < o.deviceCount →
      (enter_dev o idx (close_dev idx w dOwner).1 freshDev).2.2 = none ∧
      (enter_dev o idx (close_dev idx w dOwner).1 freshDev).2.1.isInit = true) := by
  refine ⟨?_, ?_, ?_⟩
  · intro h
    simp only [enter_dev]
    rw [if_pos h]
  · intro hn e he
    simp only [enter_dev] at he ⊢
    rw [if_neg hn] at he ⊢
    by_cases hr :
      (init_device o idx { w with activeDevices := insert idx w.activeDevices }
        freshDev).2.2 = none
    · rw [if_pos hr] at he
      rw [hr] at he
      exact Option.noConfusion he
    · have hw :=
        (init_device_world o idx
          { w with activeDevices := insert idx w.activeDevices }).resolve_left hr
      rw [if_neg hr]
      show ({ (init_device o idx { w with activeDevices := insert idx w.activeDevices }
          freshDev).1 with
        activeDevices :=
          (init_device o idx { w with activeDevices := insert idx w.activeDevices }
            freshDev).1.activeDevices.erase idx }) = w
      rw [hw]
      simp [Finset.erase_insert hn]
  · intro hok hidx
    have hnm : idx ∉ (close_dev idx w dOwner).1.activeDevices := by
      show idx ∉ w.activeDevices.erase idx
      exact Finset.not_mem_erase _ _
    obtain ⟨h1, h3, h4, h5, h6, h7, h8, h9, h10, h11⟩ := hok
    simp only [enter_dev]
    rw [if_neg hnm]
    simp [init_device, h1, h3, h4, h5, h6, h7, h8, h9, h10, h11, not_le.mpr hidx]

/-- Oracle in which every native SDK call succeeds on a one-camera system. -/
def okOracle : SdkOracle :=
  { enumOk := true, deviceCount := 1, initOk := true, capOk := true, fmtOk := true,
    trigOk := true, speedOk := true, aeOk := true, expOk := true, mallocOk := true,
    playOk := true }

/-- World with no registered devices and no live native resources. -/
def emptyWorld : World :=
  { activeDevices := ∅, liveHandles := 0, liveBuffers := 0 }

/-- Witness for c6_open_exclusive_cleanup on the one-camera system. -/
theorem c6_open_exclusive_cleanup_witness :
    (0 ∈ emptyWorld.activeDevices →
      enter_dev okOracle 0 emptyWorld freshDev =
        (emptyWorld, freshDev, some CamError.accessDenied)) ∧
    (0 ∉ emptyWorld.activeDevices → ∀ e : CamError,
      (enter_dev okOracle 0 emptyWorld freshDev).2.2 = some e →
      (enter_dev okOracle 0 emptyWorld freshDev).1 = emptyWorld) ∧
    (allOk okOracle → 0 < okOracle.deviceCount →
      (enter_dev okOracle 0 (close_dev 0 emptyWorld freshDev).1 freshDev).2.2 = none ∧
      (enter_dev okOracle 0 (close_dev 0 emptyWorld freshDev).1 freshDev).2.1.isInit =
        true) :=
  c6_open_exclusive_cleanup okOracle emptyWorld 0 freshDev

/-- C8: close is total (it never raises) and idempotent: it clears the
handle, buffer and initialized fields, removes the registration, attempts
each release action exactly once per present resource, and a second close
of the same device changes nothing and attempts no release. -/
theorem c8_close_idempotent (idx : ℕ) (w : World) (d : DevState) :
    (close_dev idx w d).2.1.handle = none ∧
    (close_dev idx w d).2.1.frameBuffer = none ∧
    (close_dev idx w d).2.1.isInit = false ∧
    idx ∉ (close_dev idx w d).1.activeDevices ∧
    (close_dev idx w d).2.2.count RelAction.freeBuffer =
      (if d.frameBuffer.isSome then 1 else 0) ∧
    (close_dev idx w d).2.2.count RelAction.unInit =
      (if d.handle.isSome then 1 else 0) ∧
    close_dev idx (close_dev idx w d).1 (close_dev idx w d).2.1 =
      ((close_dev idx w d).1, (close_dev idx w d).2.1, []) := by
  refine ⟨rfl, rfl, rfl, Finset.not_mem_erase _ _, ?_, ?_, ?_⟩
  · by_cases hb : d.frameBuffer.isSome <;> by_cases hh : d.handle.isSome <;>
      simp [close_dev, hb, hh]
  · by_cases hb : d.frameBuffer.isSome <;> by_cases hh : d.handle.isSome <;>
      simp [close_dev, hb, hh]
  · simp [close_dev, Finset.erase_idem]
